import Mathlib

/-! # Peripheral configuration of the SODAQ boards and the ATmega bring-up

A shallow embedding of

* `boards/sodaq-explorer/include/periph_conf.h`,
* `boards/sodaq-one/include/periph_conf.h`,
* `boards/common/atmega/board.c`,

followed by the properties of the clock derivation, of the descriptor tables,
of the interrupt-name mapping and of `board_init`.
-/

namespace Riot

/-! ## Clock derivation (`CLOCK_CORECLOCK`) -/

/-- Reduction of a value to the range of `unsigned int` on the 32-bit target. -/
def u32 (n : Nat) : Nat := n % 2 ^ 32

/-- The clock macros a board header sets: `CLOCK_USE_PLL` selects the branch of
`#if CLOCK_USE_PLL`; `CLOCK_PLL_MUL` and `CLOCK_PLL_DIV` belong to the PLL
branch and `CLOCK_DIV` to the `#else` branch. -/
structure ClockConfig where
  CLOCK_USE_PLL : Nat
  CLOCK_PLL_MUL : Nat
  CLOCK_PLL_DIV : Nat
  CLOCK_DIV : Nat
  deriving DecidableEq, Repr

/-- PLL branch: `(((CLOCK_PLL_MUL + 1) * 1000000U) / CLOCK_PLL_DIV)`.
`CLOCK_PLL_MUL` is an `unsigned int` literal, so the sum and the product are
computed modulo `2 ^ 32`. The divisor is a literal as well and is used as
written. Division by zero has no value. -/
def CLOCK_CORECLOCK_PLL (mul div : Nat) : Option Nat :=
  if div = 0 then none else some (u32 (u32 (mul + 1) * 1000000) / div)

/-- Direct branch: `(8000000 / CLOCK_DIV)`. The `int` constant `8000000` is
converted to `unsigned int` by the usual arithmetic conversions, because
`CLOCK_DIV` is unsigned. Division by zero has no value. -/
def CLOCK_CORECLOCK_DIRECT (div : Nat) : Option Nat :=
  if div = 0 then none else some (u32 8000000 / div)

/-- The macro `CLOCK_CORECLOCK` under `#if CLOCK_USE_PLL ... #else ... #endif`. -/
def CLOCK_CORECLOCK (cfg : ClockConfig) : Option Nat :=
  if cfg.CLOCK_USE_PLL ≠ 0 then CLOCK_CORECLOCK_PLL cfg.CLOCK_PLL_MUL cfg.CLOCK_PLL_DIV
  else CLOCK_CORECLOCK_DIRECT cfg.CLOCK_DIV

/-- The precondition on a clock configuration: in the PLL branch the multiplier
lies in `31 .. 95` and the divisor is positive, in the direct branch the divisor
is positive. -/
def ClockConfig.Valid (cfg : ClockConfig) : Prop :=
  if cfg.CLOCK_USE_PLL ≠ 0 then
    31 ≤ cfg.CLOCK_PLL_MUL ∧ cfg.CLOCK_PLL_MUL ≤ 95 ∧ 0 < cfg.CLOCK_PLL_DIV
  else 0 < cfg.CLOCK_DIV

instance (cfg : ClockConfig) : Decidable cfg.Valid := by
  unfold ClockConfig.Valid; exact inferInstance

/-- The value the divisor is applied to: `(CLOCK_PLL_MUL + 1) * 1 MHz` in the PLL
branch, `8 MHz` in the direct branch. -/
def ClockConfig.undivided (cfg : ClockConfig) : Nat :=
  if cfg.CLOCK_USE_PLL ≠ 0 then (cfg.CLOCK_PLL_MUL + 1) * 1000000 else 8000000

/-- The divisor of the selected branch. -/
def ClockConfig.divisor (cfg : ClockConfig) : Nat :=
  if cfg.CLOCK_USE_PLL ≠ 0 then cfg.CLOCK_PLL_DIV else cfg.CLOCK_DIV

/-- A configuration of the PLL branch inside the multiplier range whose divisor
exceeds the multiplied frequency of 32 MHz. -/
def pllLargeDivisor : ClockConfig :=
  { CLOCK_USE_PLL := 1, CLOCK_PLL_MUL := 31, CLOCK_PLL_DIV := 32000001, CLOCK_DIV := 1 }

/-! ## Descriptor types (`periph_cpu.h`) -/

/-- The GPIO port groups the two headers use. -/
inductive Port where
  | PA | PB
  deriving DecidableEq, Repr

/-- A pin as the pair of its port group and its index in the group. -/
structure gpio_t where
  port : Port
  pin : Nat
  deriving DecidableEq, Repr

/-- Modelled from the spec: the macro `GPIO_PIN(port, pin)` is defined in
`periph_cpu.h`, which is not among the sources at hand; it names the
(port, pin-index) pair of a PinRoute. -/
def GPIO_PIN (x : Port) (y : Nat) : gpio_t := { port := x, pin := y }

/-- The peripheral multiplexer functions the two headers select. -/
inductive gpio_mux_t where
  | GPIO_MUX_C | GPIO_MUX_D | GPIO_MUX_G
  deriving DecidableEq, Repr

/-- The serial communication units; `SERCOMn->USART`, `SERCOMn->SPI` and
`SERCOMn->I2CM` are views of unit `n`. -/
inductive Sercom where
  | SERCOM0 | SERCOM1 | SERCOM2 | SERCOM3 | SERCOM4 | SERCOM5
  deriving DecidableEq, Repr

/-- The timer/counter units named as `.dev` of a timer entry. -/
inductive Tc where
  | TC3 | TC4
  deriving DecidableEq, Repr

/-- The interrupt numbers the two headers name. -/
inductive IRQn where
  | TC3_IRQn | TC4_IRQn | RTC_IRQn
  deriving DecidableEq, Repr

/-- Generic clock ids of the timer/counter units. -/
inductive GclkId where
  | GCLK_CLKCTRL_ID_TCC2_TC3 | GCLK_CLKCTRL_ID_TC4_TC5
  deriving DecidableEq, Repr

/-- Generic clock generator selections: `GCLK_CLKCTRL_GEN(n)` and the named
`GCLK_CLKCTRL_GEN_GCLK0`. -/
inductive GclkSrc where
  | GCLK_CLKCTRL_GEN (n : Nat)
  | GCLK_CLKCTRL_GEN_GCLK0
  deriving DecidableEq, Repr

/-- Timer prescaler selections. -/
inductive TcPrescaler where
  | TC_CTRLA_PRESCALER_DIV1 | TC_CTRLA_PRESCALER_DIV8
  deriving DecidableEq, Repr

/-- Counter width selections of a timer. -/
inductive TcMode where
  | TC_CTRLA_MODE_COUNT16 | TC_CTRLA_MODE_COUNT32
  deriving DecidableEq, Repr

/-- Values the headers use without defining them: the bit positions of
`PM_APBCMASK_TC3`, `PM_APBCMASK_TC4` and `PM_APBCMASK_TC5` in the vendor header,
and the macro `CLOCK_USE_XOSC32_DFLL` tested by `#if`. -/
structure Sam0Params where
  PM_APBCMASK_TC3_Pos : Nat
  PM_APBCMASK_TC4_Pos : Nat
  PM_APBCMASK_TC5_Pos : Nat
  CLOCK_USE_XOSC32_DFLL : Nat
  deriving DecidableEq, Repr

/-- The single-bit mask `PM_APBCMASK_TC3`. -/
def PM_APBCMASK_TC3 (k : Sam0Params) : Nat := 1 <<< k.PM_APBCMASK_TC3_Pos

/-- The single-bit mask `PM_APBCMASK_TC4`. -/
def PM_APBCMASK_TC4 (k : Sam0Params) : Nat := 1 <<< k.PM_APBCMASK_TC4_Pos

/-- The single-bit mask `PM_APBCMASK_TC5`. -/
def PM_APBCMASK_TC5 (k : Sam0Params) : Nat := 1 <<< k.PM_APBCMASK_TC5_Pos

/-- Timer descriptor `tc32_conf_t`. -/
structure tc32_conf_t where
  dev : Tc
  irq : IRQn
  pm_mask : Nat
  gclk_ctrl : GclkId
  gclk_src : GclkSrc
  prescaler : TcPrescaler
  flags : TcMode
  deriving DecidableEq, Repr

/-- The receive pad selection the UART entries use. -/
inductive uart_rxpad_t where
  | UART_PAD_RX_1
  deriving DecidableEq, Repr

/-- The transmit pad selections the UART entries use. -/
inductive uart_txpad_t where
  | UART_PAD_TX_0 | UART_PAD_TX_2 | UART_PAD_TX_0_RTS_2_CTS_3
  deriving DecidableEq, Repr

/-- UART flags. -/
inductive uart_flag_t where
  | UART_FLAG_NONE
  deriving DecidableEq, Repr

/-- UART descriptor `uart_conf_t`. -/
structure uart_conf_t where
  dev : Sercom
  rx_pin : gpio_t
  tx_pin : gpio_t
  mux : gpio_mux_t
  rx_pad : uart_rxpad_t
  tx_pad : uart_txpad_t
  flags : uart_flag_t
  gclk_src : GclkSrc
  deriving DecidableEq, Repr

/-- Positive input selection of an ADC channel, `ADC_INPUTCTRL_MUXPOS_PINn`. -/
inductive AdcMuxPos where
  | ADC_INPUTCTRL_MUXPOS_PIN (n : Nat)
  deriving DecidableEq, Repr

/-- ADC channel descriptor `adc_conf_chan_t`. -/
structure adc_conf_chan_t where
  pin : gpio_t
  muxpos : AdcMuxPos
  deriving DecidableEq, Repr

/-- The MISO pad selection the SPI entries use. -/
inductive spi_misopad_t where
  | SPI_PAD_MISO_0
  deriving DecidableEq, Repr

/-- The MOSI and clock pad selection the SPI entries use. -/
inductive spi_mosipad_t where
  | SPI_PAD_MOSI_2_SCK_3
  deriving DecidableEq, Repr

/-- SPI descriptor `spi_conf_t`. -/
structure spi_conf_t where
  dev : Sercom
  miso_pin : gpio_t
  mosi_pin : gpio_t
  clk_pin : gpio_t
  miso_mux : gpio_mux_t
  mosi_mux : gpio_mux_t
  clk_mux : gpio_mux_t
  miso_pad : spi_misopad_t
  mosi_pad : spi_mosipad_t
  deriving DecidableEq, Repr

/-- The bus speed the I2C entries use. -/
inductive i2c_speed_t where
  | I2C_SPEED_NORMAL
  deriving DecidableEq, Repr

/-- I2C flags. -/
inductive i2c_flag_t where
  | I2C_FLAG_NONE
  deriving DecidableEq, Repr

/-- I2C descriptor `i2c_conf_t`. -/
structure i2c_conf_t where
  dev : Sercom
  speed : i2c_speed_t
  scl_pin : gpio_t
  sda_pin : gpio_t
  mux : gpio_mux_t
  gclk_src : GclkSrc
  flags : i2c_flag_t
  deriving DecidableEq, Repr

/-- The USB device unit `&USB->DEVICE`. -/
inductive UsbDev where
  | USB_DEVICE
  deriving DecidableEq, Repr

/-- USB descriptor `sam0_common_usb_config_t`. -/
structure sam0_common_usb_config_t where
  dm : gpio_t
  dp : gpio_t
  d_mux : gpio_mux_t
  device : UsbDev
  deriving DecidableEq, Repr

/-- Modelled from the spec: the macro `ARRAY_SIZE` is not defined in the sources
at hand; it gives the number of entries of a table. -/
def ARRAY_SIZE {α : Type} (a : List α) : Nat := a.length

/-- The generator selection of a timer entry:
`#if CLOCK_USE_PLL || CLOCK_USE_XOSC32_DFLL` takes `GCLK_CLKCTRL_GEN(1)`, the
`#else` branch `GCLK_CLKCTRL_GEN(0)`. -/
def timer_gclk_src (CLOCK_USE_PLL CLOCK_USE_XOSC32_DFLL : Nat) : GclkSrc :=
  if CLOCK_USE_PLL ≠ 0 ∨ CLOCK_USE_XOSC32_DFLL ≠ 0 then GclkSrc.GCLK_CLKCTRL_GEN 1
  else GclkSrc.GCLK_CLKCTRL_GEN 0

/-- The prescaler of a timer entry: `TC_CTRLA_PRESCALER_DIV1` under
`#if CLOCK_USE_PLL || CLOCK_USE_XOSC32_DFLL`, else `TC_CTRLA_PRESCALER_DIV8`. -/
def timer_prescaler (CLOCK_USE_PLL CLOCK_USE_XOSC32_DFLL : Nat) : TcPrescaler :=
  if CLOCK_USE_PLL ≠ 0 ∨ CLOCK_USE_XOSC32_DFLL ≠ 0 then TcPrescaler.TC_CTRLA_PRESCALER_DIV1
  else TcPrescaler.TC_CTRLA_PRESCALER_DIV8

/-- The pin roles of a UART descriptor. -/
def uart_conf_t.pins (d : uart_conf_t) : List gpio_t := [d.rx_pin, d.tx_pin]

/-- The pin role of an ADC channel. -/
def adc_conf_chan_t.pins (d : adc_conf_chan_t) : List gpio_t := [d.pin]

/-- The pin roles of an SPI descriptor. -/
def spi_conf_t.pins (d : spi_conf_t) : List gpio_t := [d.miso_pin, d.mosi_pin, d.clk_pin]

/-- The pin roles of an I2C descriptor. -/
def i2c_conf_t.pins (d : i2c_conf_t) : List gpio_t := [d.scl_pin, d.sda_pin]

/-- The pin roles of the USB descriptor. -/
def sam0_common_usb_config_t.pins (d : sam0_common_usb_config_t) : List gpio_t := [d.dm, d.dp]

/-! ## Interrupt function name mapping -/

/-- The mapping macros `TIMER_i_ISR`, `UART_i_ISR` and `RTT_ISR`. -/
inductive IsrMacro where
  | TIMER_ISR (i : Nat)
  | UART_ISR (i : Nat)
  | RTT_ISR
  deriving DecidableEq, Repr

/-- The interrupt service routine names `isr_tcN`, `isr_sercomN` and `isr_rtc`. -/
inductive IsrName where
  | isr_tc (n : Nat)
  | isr_sercom (n : Nat)
  | isr_rtc
  deriving DecidableEq, Repr

/-- The number of `#define` lines of a header that define the macro `m`. -/
def bindingCount (bindings : List (IsrMacro × IsrName)) (m : IsrMacro) : Nat :=
  (bindings.filter (fun b => decide (b.1 = m))).length

/-! ## `boards/sodaq-explorer/include/periph_conf.h` -/

namespace SodaqExplorer

/-- The clock macros: `CLOCK_USE_PLL (1)`, `CLOCK_PLL_MUL (47U)`,
`CLOCK_PLL_DIV (1U)`; the `#else` branch has `CLOCK_DIV (1U)`. -/
def clock : ClockConfig :=
  { CLOCK_USE_PLL := 1, CLOCK_PLL_MUL := 47, CLOCK_PLL_DIV := 1, CLOCK_DIV := 1 }

/-- The table `timer_config[]`. -/
def timer_config (k : Sam0Params) : List tc32_conf_t :=
  [ { dev := Tc.TC3,
      irq := IRQn.TC3_IRQn,
      pm_mask := PM_APBCMASK_TC3 k,
      gclk_ctrl := GclkId.GCLK_CLKCTRL_ID_TCC2_TC3,
      gclk_src := timer_gclk_src clock.CLOCK_USE_PLL k.CLOCK_USE_XOSC32_DFLL,
      prescaler := timer_prescaler clock.CLOCK_USE_PLL k.CLOCK_USE_XOSC32_DFLL,
      flags := TcMode.TC_CTRLA_MODE_COUNT16 },
    { dev := Tc.TC4,
      irq := IRQn.TC4_IRQn,
      pm_mask := PM_APBCMASK_TC4 k ||| PM_APBCMASK_TC5 k,
      gclk_ctrl := GclkId.GCLK_CLKCTRL_ID_TC4_TC5,
      gclk_src := timer_gclk_src clock.CLOCK_USE_PLL k.CLOCK_USE_XOSC32_DFLL,
      prescaler := timer_prescaler clock.CLOCK_USE_PLL k.CLOCK_USE_XOSC32_DFLL,
      flags := TcMode.TC_CTRLA_MODE_COUNT32 } ]

/-- The macro `TIMER_NUMOF`. -/
def TIMER_NUMOF (k : Sam0Params) : Nat := ARRAY_SIZE (timer_config k)

/-- The table `uart_config[]`. -/
def uart_config : List uart_conf_t :=
  [ { dev := Sercom.SERCOM5,
      rx_pin := GPIO_PIN Port.PB 31,
      tx_pin := GPIO_PIN Port.PB 30,
      mux := gpio_mux_t.GPIO_MUX_D,
      rx_pad := uart_rxpad_t.UART_PAD_RX_1,
      tx_pad := uart_txpad_t.UART_PAD_TX_0_RTS_2_CTS_3,
      flags := uart_flag_t.UART_FLAG_NONE,
      gclk_src := GclkSrc.GCLK_CLKCTRL_GEN_GCLK0 },
    { dev := Sercom.SERCOM4,
      rx_pin := GPIO_PIN Port.PB 13,
      tx_pin := GPIO_PIN Port.PB 14,
      mux := gpio_mux_t.GPIO_MUX_C,
      rx_pad := uart_rxpad_t.UART_PAD_RX_1,
      tx_pad := uart_txpad_t.UART_PAD_TX_2,
      flags := uart_flag_t.UART_FLAG_NONE,
      gclk_src := GclkSrc.GCLK_CLKCTRL_GEN_GCLK0 },
    { dev := Sercom.SERCOM0,
      rx_pin := GPIO_PIN Port.PA 5,
      tx_pin := GPIO_PIN Port.PA 6,
      mux := gpio_mux_t.GPIO_MUX_D,
      rx_pad := uart_rxpad_t.UART_PAD_RX_1,
      tx_pad := uart_txpad_t.UART_PAD_TX_2,
      flags := uart_flag_t.UART_FLAG_NONE,
      gclk_src := GclkSrc.GCLK_CLKCTRL_GEN_GCLK0 } ]

/-- The macro `UART_NUMOF`. -/
def UART_NUMOF : Nat := ARRAY_SIZE uart_config

/-- The table `adc_channels[]`. -/
def adc_channels : List adc_conf_chan_t :=
  [ { pin := GPIO_PIN Port.PB 0, muxpos := AdcMuxPos.ADC_INPUTCTRL_MUXPOS_PIN 8 },
    { pin := GPIO_PIN Port.PB 1, muxpos := AdcMuxPos.ADC_INPUTCTRL_MUXPOS_PIN 9 },
    { pin := GPIO_PIN Port.PB 2, muxpos := AdcMuxPos.ADC_INPUTCTRL_MUXPOS_PIN 10 },
    { pin := GPIO_PIN Port.PB 3, muxpos := AdcMuxPos.ADC_INPUTCTRL_MUXPOS_PIN 11 },
    { pin := GPIO_PIN Port.PA 8, muxpos := AdcMuxPos.ADC_INPUTCTRL_MUXPOS_PIN 16 },
    { pin := GPIO_PIN Port.PA 9, muxpos := AdcMuxPos.ADC_INPUTCTRL_MUXPOS_PIN 17 },
    { pin := GPIO_PIN Port.PA 4, muxpos := AdcMuxPos.ADC_INPUTCTRL_MUXPOS_PIN 4 },
    { pin := GPIO_PIN Port.PA 10, muxpos := AdcMuxPos.ADC_INPUTCTRL_MUXPOS_PIN 18 },
    { pin := GPIO_PIN Port.PA 11, muxpos := AdcMuxPos.ADC_INPUTCTRL_MUXPOS_PIN 19 },
    { pin := GPIO_PIN Port.PB 5, muxpos := AdcMuxPos.ADC_INPUTCTRL_MUXPOS_PIN 13 } ]

/-- The macro `ADC_NUMOF`. -/
def ADC_NUMOF : Nat := ARRAY_SIZE adc_channels

/-- The table `spi_config[]`. -/
def spi_config : List spi_conf_t :=
  [ { dev := Sercom.SERCOM3,
      miso_pin := GPIO_PIN Port.PA 22,
      mosi_pin := GPIO_PIN Port.PA 20,
      clk_pin := GPIO_PIN Port.PA 21,
      miso_mux := gpio_mux_t.GPIO_MUX_C,
      mosi_mux := gpio_mux_t.GPIO_MUX_C,
      clk_mux := gpio_mux_t.GPIO_MUX_C,
      miso_pad := spi_misopad_t.SPI_PAD_MISO_0,
      mosi_pad := spi_mosipad_t.SPI_PAD_MOSI_2_SCK_3 } ]

/-- The macro `SPI_NUMOF`. -/
def SPI_NUMOF : Nat := ARRAY_SIZE spi_config

/-- The table `i2c_config[]`. -/
def i2c_config : List i2c_conf_t :=
  [ { dev := Sercom.SERCOM1,
      speed := i2c_speed_t.I2C_SPEED_NORMAL,
      scl_pin := GPIO_PIN Port.PA 17,
      sda_pin := GPIO_PIN Port.PA 16,
      mux := gpio_mux_t.GPIO_MUX_C,
      gclk_src := GclkSrc.GCLK_CLKCTRL_GEN_GCLK0,
      flags := i2c_flag_t.I2C_FLAG_NONE },
    { dev := Sercom.SERCOM2,
      speed := i2c_speed_t.I2C_SPEED_NORMAL,
      scl_pin := GPIO_PIN Port.PA 9,
      sda_pin := GPIO_PIN Port.PA 8,
      mux := gpio_mux_t.GPIO_MUX_C,
      gclk_src := GclkSrc.GCLK_CLKCTRL_GEN_GCLK0,
      flags := i2c_flag_t.I2C_FLAG_NONE } ]

/-- The macro `I2C_NUMOF`. -/
def I2C_NUMOF : Nat := ARRAY_SIZE i2c_config

/-- The macro `RTC_NUMOF (1U)`. -/
def RTC_NUMOF : Nat := 1

/-- The macro `RTT_NUMOF (1U)`. -/
def RTT_NUMOF : Nat := 1

/-- The table `sam_usbdev_config[]`. -/
def sam_usbdev_config : List sam0_common_usb_config_t :=
  [ { dm := GPIO_PIN Port.PA 24,
      dp := GPIO_PIN Port.PA 25,
      d_mux := gpio_mux_t.GPIO_MUX_G,
      device := UsbDev.USB_DEVICE } ]

/-- The interrupt function name mapping, one pair per `#define` line, in the
order of the header. -/
def isr_bindings : List (IsrMacro × IsrName) :=
  [ (IsrMacro.TIMER_ISR 0, IsrName.isr_tc 3),
    (IsrMacro.TIMER_ISR 1, IsrName.isr_tc 4),
    (IsrMacro.UART_ISR 0, IsrName.isr_sercom 5),
    (IsrMacro.UART_ISR 1, IsrName.isr_sercom 4),
    (IsrMacro.UART_ISR 2, IsrName.isr_sercom 0),
    (IsrMacro.RTT_ISR, IsrName.isr_rtc) ]

/-- Every pin field of the UART, ADC, SPI, I2C and USB tables, in that order. -/
def all_pins : List gpio_t :=
  uart_config.flatMap uart_conf_t.pins ++ adc_channels.flatMap adc_conf_chan_t.pins
    ++ spi_config.flatMap spi_conf_t.pins ++ i2c_config.flatMap i2c_conf_t.pins
    ++ sam_usbdev_config.flatMap sam0_common_usb_config_t.pins

end SodaqExplorer

/-! ## `boards/sodaq-one/include/periph_conf.h` -/

namespace SodaqOne

/-- The clock macros: `CLOCK_USE_PLL (1)`, `CLOCK_PLL_MUL (47U)`,
`CLOCK_PLL_DIV (1U)`; the `#else` branch has `CLOCK_DIV (1U)`. -/
def clock : ClockConfig :=
  { CLOCK_USE_PLL := 1, CLOCK_PLL_MUL := 47, CLOCK_PLL_DIV := 1, CLOCK_DIV := 1 }

/-- The table `timer_config[]`. -/
def timer_config (k : Sam0Params) : List tc32_conf_t :=
  [ { dev := Tc.TC3,
      irq := IRQn.TC3_IRQn,
      pm_mask := PM_APBCMASK_TC3 k,
      gclk_ctrl := GclkId.GCLK_CLKCTRL_ID_TCC2_TC3,
      gclk_src := timer_gclk_src clock.CLOCK_USE_PLL k.CLOCK_USE_XOSC32_DFLL,
      prescaler := timer_prescaler clock.CLOCK_USE_PLL k.CLOCK_USE_XOSC32_DFLL,
      flags := TcMode.TC_CTRLA_MODE_COUNT16 },
    { dev := Tc.TC4,
      irq := IRQn.TC4_IRQn,
      pm_mask := PM_APBCMASK_TC4 k ||| PM_APBCMASK_TC5 k,
      gclk_ctrl := GclkId.GCLK_CLKCTRL_ID_TC4_TC5,
      gclk_src := timer_gclk_src clock.CLOCK_USE_PLL k.CLOCK_USE_XOSC32_DFLL,
      prescaler := timer_prescaler clock.CLOCK_USE_PLL k.CLOCK_USE_XOSC32_DFLL,
      flags := TcMode.TC_CTRLA_MODE_COUNT32 } ]

/-- The macro `TIMER_NUMOF`. -/
def TIMER_NUMOF (k : Sam0Params) : Nat := ARRAY_SIZE (timer_config k)

/-- The table `uart_config[]`. -/
def uart_config : List uart_conf_t :=
  [ { dev := Sercom.SERCOM5,
      rx_pin := GPIO_PIN Port.PB 3,
      tx_pin := GPIO_PIN Port.PB 2,
      mux := gpio_mux_t.GPIO_MUX_D,
      rx_pad := uart_rxpad_t.UART_PAD_RX_1,
      tx_pad := uart_txpad_t.UART_PAD_TX_0,
      flags := uart_flag_t.UART_FLAG_NONE,
      gclk_src := GclkSrc.GCLK_CLKCTRL_GEN_GCLK0 },
    { dev := Sercom.SERCOM2,
      rx_pin := GPIO_PIN Port.PA 13,
      tx_pin := GPIO_PIN Port.PA 12,
      mux := gpio_mux_t.GPIO_MUX_C,
      rx_pad := uart_rxpad_t.UART_PAD_RX_1,
      tx_pad := uart_txpad_t.UART_PAD_TX_0,
      flags := uart_flag_t.UART_FLAG_NONE,
      gclk_src := GclkSrc.GCLK_CLKCTRL_GEN_GCLK0 } ]

/-- The macro `UART_NUMOF`. -/
def UART_NUMOF : Nat := ARRAY_SIZE uart_config

/-- The table `adc_channels[]`; the two entries between `#if 0` and `#endif`
(`PB2`, `PB3`) are not part of it. -/
def adc_channels : List adc_conf_chan_t :=
  [ { pin := GPIO_PIN Port.PA 2, muxpos := AdcMuxPos.ADC_INPUTCTRL_MUXPOS_PIN 0 },
    { pin := GPIO_PIN Port.PA 3, muxpos := AdcMuxPos.ADC_INPUTCTRL_MUXPOS_PIN 1 },
    { pin := GPIO_PIN Port.PB 8, muxpos := AdcMuxPos.ADC_INPUTCTRL_MUXPOS_PIN 2 },
    { pin := GPIO_PIN Port.PB 9, muxpos := AdcMuxPos.ADC_INPUTCTRL_MUXPOS_PIN 3 },
    { pin := GPIO_PIN Port.PA 6, muxpos := AdcMuxPos.ADC_INPUTCTRL_MUXPOS_PIN 6 },
    { pin := GPIO_PIN Port.PA 7, muxpos := AdcMuxPos.ADC_INPUTCTRL_MUXPOS_PIN 7 },
    { pin := GPIO_PIN Port.PA 8, muxpos := AdcMuxPos.ADC_INPUTCTRL_MUXPOS_PIN 16 },
    { pin := GPIO_PIN Port.PA 9, muxpos := AdcMuxPos.ADC_INPUTCTRL_MUXPOS_PIN 17 },
    { pin := GPIO_PIN Port.PA 10, muxpos := AdcMuxPos.ADC_INPUTCTRL_MUXPOS_PIN 18 },
    { pin := GPIO_PIN Port.PA 11, muxpos := AdcMuxPos.ADC_INPUTCTRL_MUXPOS_PIN 19 },
    { pin := GPIO_PIN Port.PA 5, muxpos := AdcMuxPos.ADC_INPUTCTRL_MUXPOS_PIN 5 } ]

/-- The macro `ADC_NUMOF`. -/
def ADC_NUMOF : Nat := ARRAY_SIZE adc_channels

/-- The table `spi_config[]`. -/
def spi_config : List spi_conf_t :=
  [ { dev := Sercom.SERCOM0,
      miso_pin := GPIO_PIN Port.PA 8,
      mosi_pin := GPIO_PIN Port.PA 10,
      clk_pin := GPIO_PIN Port.PA 11,
      miso_mux := gpio_mux_t.GPIO_MUX_C,
      mosi_mux := gpio_mux_t.GPIO_MUX_C,
      clk_mux := gpio_mux_t.GPIO_MUX_C,
      miso_pad := spi_misopad_t.SPI_PAD_MISO_0,
      mosi_pad := spi_mosipad_t.SPI_PAD_MOSI_2_SCK_3 } ]

/-- The macro `SPI_NUMOF`. -/
def SPI_NUMOF : Nat := ARRAY_SIZE spi_config

/-- The table `i2c_config[]`. -/
def i2c_config : List i2c_conf_t :=
  [ { dev := Sercom.SERCOM3,
      speed := i2c_speed_t.I2C_SPEED_NORMAL,
      scl_pin := GPIO_PIN Port.PA 23,
      sda_pin := GPIO_PIN Port.PA 22,
      mux := gpio_mux_t.GPIO_MUX_C,
      gclk_src := GclkSrc.GCLK_CLKCTRL_GEN_GCLK0,
      flags := i2c_flag_t.I2C_FLAG_NONE } ]

/-- The macro `I2C_NUMOF`. -/
def I2C_NUMOF : Nat := ARRAY_SIZE i2c_config

/-- The macro `RTC_NUMOF (1U)`. -/
def RTC_NUMOF : Nat := 1

/-- The macro `RTT_NUMOF (1U)`. -/
def RTT_NUMOF : Nat := 1

/-- The table `sam_usbdev_config[]`. -/
def sam_usbdev_config : List sam0_common_usb_config_t :=
  [ { dm := GPIO_PIN Port.PA 24,
      dp := GPIO_PIN Port.PA 25,
      d_mux := gpio_mux_t.GPIO_MUX_G,
      device := UsbDev.USB_DEVICE } ]

/-- The interrupt function name mapping, one pair per `#define` line, in the
order of the header. -/
def isr_bindings : List (IsrMacro × IsrName) :=
  [ (IsrMacro.TIMER_ISR 0, IsrName.isr_tc 3),
    (IsrMacro.TIMER_ISR 1, IsrName.isr_tc 4),
    (IsrMacro.UART_ISR 0, IsrName.isr_sercom 5),
    (IsrMacro.UART_ISR 1, IsrName.isr_sercom 2),
    (IsrMacro.RTT_ISR, IsrName.isr_rtc) ]

/-- Every pin field of the UART, ADC, SPI, I2C and USB tables, in that order. -/
def all_pins : List gpio_t :=
  uart_config.flatMap uart_conf_t.pins ++ adc_channels.flatMap adc_conf_chan_t.pins
    ++ spi_config.flatMap spi_conf_t.pins ++ i2c_config.flatMap i2c_conf_t.pins
    ++ sam_usbdev_config.flatMap sam0_common_usb_config_t.pins

end SodaqOne

/-! ## Counting width and gated units of a timer table -/

/-- The counting width of every entry of a timer table matches the units its
`pm_mask` gates: an entry flagged `TC_CTRLA_MODE_COUNT32` gates the bits of TC4
and of TC5 and no other, uses the clock id of that pair and has TC4 as device;
an entry flagged `TC_CTRLA_MODE_COUNT16` gates the bit of TC3 and no other, with
the clock id and device of TC3; two different entries gate no common bit; the
table is one 16-bit entry followed by one 32-bit entry. -/
def TimerWidthMatchesUnits (k : Sam0Params) (tbl : List tc32_conf_t) : Prop :=
  (∀ d ∈ tbl, d.flags = TcMode.TC_CTRLA_MODE_COUNT32 →
      d.pm_mask.testBit k.PM_APBCMASK_TC4_Pos = true
        ∧ d.pm_mask.testBit k.PM_APBCMASK_TC5_Pos = true
        ∧ (∀ i, d.pm_mask.testBit i = true ↔
            i = k.PM_APBCMASK_TC4_Pos ∨ i = k.PM_APBCMASK_TC5_Pos)
        ∧ d.gclk_ctrl = GclkId.GCLK_CLKCTRL_ID_TC4_TC5
        ∧ d.dev = Tc.TC4)
    ∧ (∀ d ∈ tbl, d.flags = TcMode.TC_CTRLA_MODE_COUNT16 →
      (∀ i, d.pm_mask.testBit i = true ↔ i = k.PM_APBCMASK_TC3_Pos)
        ∧ d.gclk_ctrl = GclkId.GCLK_CLKCTRL_ID_TCC2_TC3
        ∧ d.dev = Tc.TC3)
    ∧ tbl.Pairwise (fun a b => a.pm_mask &&& b.pm_mask = 0)
    ∧ (tbl.map tc32_conf_t.flags
        = [TcMode.TC_CTRLA_MODE_COUNT16, TcMode.TC_CTRLA_MODE_COUNT32])

/-- The gate bit positions of TC3, TC4 and TC5 in `PM_APBCMASK` on the SAM D21
(11, 12 and 13), with `CLOCK_USE_XOSC32_DFLL` undefined. -/
def samd21Params : Sam0Params :=
  { PM_APBCMASK_TC3_Pos := 11, PM_APBCMASK_TC4_Pos := 12, PM_APBCMASK_TC5_Pos := 13,
    CLOCK_USE_XOSC32_DFLL := 0 }

/-! ## `boards/common/atmega/board.c` -/

/-- Reduction of a value to the width of an 8-bit register. -/
def u8 (n : Nat) : Nat := n % 2 ^ 8

/-- The clock prescaler settings: the default `CPU_ATMEGA_CLK_SCALE_DIV1` and any
other value a build defines `CPU_ATMEGA_CLK_SCALE_INIT` to. -/
inductive ClkScale where
  | CPU_ATMEGA_CLK_SCALE_DIV1
  | CPU_ATMEGA_CLK_SCALE (n : Nat)
  deriving DecidableEq, Repr

/-- The macro `CPU_ATMEGA_CLK_SCALE_INIT`: the value of the build when it defines
one, `CPU_ATMEGA_CLK_SCALE_DIV1` under `#ifndef`. -/
def CPU_ATMEGA_CLK_SCALE_INIT (defined : Option ClkScale) : ClkScale :=
  match defined with
  | some v => v
  | none => ClkScale.CPU_ATMEGA_CLK_SCALE_DIV1

/-- The functions `board_init` calls. -/
inductive Call where
  | atmega_set_prescaler (scale : ClkScale)
  | cpu_init
  | led_init
  | irq_enable
  deriving DecidableEq, Repr

/-- What `board_init` does to the machine: a write of a value to the register
`PRR1`, or a call. -/
inductive Event where
  | write_PRR1 (value : Nat)
  | call (c : Call)
  deriving DecidableEq, Repr

/-- The machine as far as `board_init` is concerned: the content of the register
`PRR1` and the events so far, oldest first. -/
structure Mcu where
  PRR1 : Nat
  trace : List Event
  deriving DecidableEq, Repr

/-- Appends an event to the trace. -/
def Mcu.log (s : Mcu) (e : Event) : Mcu := { s with trace := s.trace ++ [e] }

/-- The statement `PRR1 |= 1<<PRUSB;`: the register is read, the bit is set and
the low eight bits are written back. -/
def PRR1_set_PRUSB (PRUSB : Nat) (s : Mcu) : Mcu :=
  let value := u8 (s.PRR1 ||| 1 <<< PRUSB)
  { PRR1 := value, trace := s.trace ++ [Event.write_PRR1 value] }

/-- Modelled from the spec: `atmega_set_prescaler` is defined in the CPU code,
which is not among the sources at hand; as an external collaborator it is
recorded as a call and leaves `PRR1` alone. -/
def atmega_set_prescaler (scale : ClkScale) (s : Mcu) : Mcu :=
  s.log (Event.call (Call.atmega_set_prescaler scale))

/-- Modelled from the spec: `cpu_init` is defined in the CPU code, which is not
among the sources at hand; as an external collaborator it is recorded as a
call and leaves `PRR1` alone. -/
def cpu_init (s : Mcu) : Mcu := s.log (Event.call Call.cpu_init)

/-- Modelled from the spec: `irq_enable` is defined in the CPU code, which is not
among the sources at hand; as an external collaborator it is recorded as a
call and leaves `PRR1` alone. -/
def irq_enable (s : Mcu) : Mcu := s.log (Event.call Call.irq_enable)

/-- The weak fall-back `void __attribute__((weak)) led_init(void) {}`: an empty
body. -/
def led_init_weak (s : Mcu) : Mcu := s

/-- The function `board_init`. `CPU_ATMEGA32U4` tells whether the macro of that
name is defined, `PRUSB` is the bit index from the device header, `scale` is
the value the build defines `CPU_ATMEGA_CLK_SCALE_INIT` to, if any, and
`led_init` is the implementation the linker picks; the call of it is recorded
before its body runs. -/
def board_init (CPU_ATMEGA32U4 : Bool) (PRUSB : Nat) (scale : Option ClkScale)
    (led_init : Mcu → Mcu) (s : Mcu) : Mcu :=
  let s := if CPU_ATMEGA32U4 then PRR1_set_PRUSB PRUSB s else s
  let s := atmega_set_prescaler (CPU_ATMEGA_CLK_SCALE_INIT scale) s
  let s := cpu_init s
  let s := led_init (s.log (Event.call Call.led_init))
  irq_enable s

/-- The calls of a trace, oldest first. -/
def callsOf (trace : List Event) : List Call :=
  trace.filterMap (fun e => match e with
    | Event.call c => some c
    | Event.write_PRR1 _ => none)

/-- The states of the bring-up sequence. -/
inductive BringupState where
  | Reset | ClockConfigured | CoreInitialized | IndicatorsInitialized | InterruptsEnabled
  deriving DecidableEq, Repr

/-- Modelled from the spec: the four transitions of the bring-up state machine,
each taken by one call; any other call in a state is no transition. -/
def BringupState.step : BringupState → Call → Option BringupState
  | BringupState.Reset, Call.atmega_set_prescaler _ => some BringupState.ClockConfigured
  | BringupState.ClockConfigured, Call.cpu_init => some BringupState.CoreInitialized
  | BringupState.CoreInitialized, Call.led_init => some BringupState.IndicatorsInitialized
  | BringupState.IndicatorsInitialized, Call.irq_enable => some BringupState.InterruptsEnabled
  | _, _ => none

/-- The states visited from `st` by a list of calls, `st` first; `none` when a
call is no transition in the state reached. -/
def BringupState.path (st : BringupState) : List Call → Option (List BringupState)
  | [] => some [st]
  | c :: cs =>
    match st.step c with
    | none => none
    | some st1 =>
      match st1.path cs with
      | none => none
      | some p => some (st :: p)

/-! ### Properties of the clock derivation -/

/-- In the multiplier range the product of the PLL branch stays below `2 ^ 32`. -/
theorem pll_product_no_wrap (m : Nat) (hhi : m ≤ 95) :
    u32 (u32 (m + 1) * 1000000) = (m + 1) * 1000000 := by
  unfold u32
  have h1 : (m + 1) % 2 ^ 32 = m + 1 := Nat.mod_eq_of_lt (by omega)
  rw [h1]
  exact Nat.mod_eq_of_lt (by omega)

/-- C1. For a PLL multiplier `m` in `31 .. 95` and a divisor `d > 0` the PLL
branch of `CLOCK_CORECLOCK`, computed in 32-bit unsigned arithmetic, is
`((m + 1) * 1000000) / d`, and the product does not wrap. With `d = 1` the
multipliers 31 and 95 give 32 MHz and 96 MHz, and the configuration of both
boards (`CLOCK_PLL_MUL = 47`, `CLOCK_PLL_DIV = 1`) gives 48 MHz. -/
theorem coreclock_pll_exact (m d : Nat) (hlo : 31 ≤ m) (hhi : m ≤ 95) (hd : 0 < d) :
    CLOCK_CORECLOCK_PLL m d = some (((m + 1) * 1000000) / d)
      ∧ (m + 1) * 1000000 < 2 ^ 32
      ∧ 32000000 ≤ (m + 1) * 1000000
      ∧ CLOCK_CORECLOCK_PLL 31 1 = some 32000000
      ∧ CLOCK_CORECLOCK_PLL 95 1 = some 96000000
      ∧ CLOCK_CORECLOCK SodaqExplorer.clock = some 48000000
      ∧ CLOCK_CORECLOCK SodaqOne.clock = some 48000000 := by
  refine ⟨?_, by omega, by omega, by decide, by decide, by decide, by decide⟩
  unfold CLOCK_CORECLOCK_PLL
  rw [if_neg (Nat.pos_iff_ne_zero.mp hd), pll_product_no_wrap m hhi]

/-- Instance of `coreclock_pll_exact` at the multiplier 63 and the divisor 3,
where the quotient is truncated. -/
theorem coreclock_pll_exact_witness :
    CLOCK_CORECLOCK_PLL 63 3 = some 21333333 :=
  (coreclock_pll_exact 63 3 (by decide) (by decide) (by decide)).1

/-- C2. For a divisor `d > 0` the direct branch of `CLOCK_CORECLOCK` is the
truncated quotient `8000000 / d`; `d = 1` gives exactly 8 MHz. -/
theorem coreclock_direct_exact (d : Nat) (hd : 0 < d) :
    CLOCK_CORECLOCK_DIRECT d = some (8000000 / d)
      ∧ CLOCK_CORECLOCK { CLOCK_USE_PLL := 0, CLOCK_PLL_MUL := 47, CLOCK_PLL_DIV := 1,
                          CLOCK_DIV := d } = some (8000000 / d)
      ∧ 8000000 / d * d ≤ 8000000 ∧ 8000000 < (8000000 / d + 1) * d
      ∧ CLOCK_CORECLOCK_DIRECT 1 = some 8000000 := by
  have hne : d ≠ 0 := Nat.pos_iff_ne_zero.mp hd
  have hdir : CLOCK_CORECLOCK_DIRECT d = some (8000000 / d) := by
    unfold CLOCK_CORECLOCK_DIRECT u32
    rw [if_neg hne]
    norm_num
  refine ⟨hdir, ?_, Nat.div_mul_le_self _ _, ?_, by decide⟩
  · simpa [CLOCK_CORECLOCK] using hdir
  · exact Nat.lt_div_mul_add hd |>.trans_eq (by ring)

/-- Instance of `coreclock_direct_exact` at the divisor 3, where the remainder 2
is dropped. -/
theorem coreclock_direct_exact_witness :
    CLOCK_CORECLOCK_DIRECT 3 = some 2666666 :=
  (coreclock_direct_exact 3 (by decide)).1

/-- Counterexample to C3: the multiplier 31 with the divisor 32000001 satisfies
the precondition of the PLL branch, yet the derived frequency is 0. -/
theorem coreclock_zero_for_large_divisor :
    pllLargeDivisor.Valid ∧ CLOCK_CORECLOCK pllLargeDivisor = some 0
      ∧ ¬ (∀ cfg : ClockConfig, cfg.Valid → ∃ hz, CLOCK_CORECLOCK cfg = some hz ∧ 0 < hz) := by
  have hv : pllLargeDivisor.Valid := by decide
  have h0 : CLOCK_CORECLOCK pllLargeDivisor = some 0 := by decide
  refine ⟨hv, h0, ?_⟩
  intro h
  obtain ⟨hz, h1, h2⟩ := h pllLargeDivisor hv
  rw [h0] at h1
  cases h1
  exact absurd h2 (by decide)

/-- C3 (amended). For a clock configuration that satisfies the precondition the
derived `CLOCK_CORECLOCK` has a value, and the value is positive exactly when
the divisor does not exceed the undivided frequency (`(multiplier + 1) * 1 MHz`
in the PLL branch, `8 MHz` in the direct branch). -/
theorem coreclock_pos_iff (cfg : ClockConfig) (hv : cfg.Valid) :
    ∃ hz, CLOCK_CORECLOCK cfg = some hz ∧ (0 < hz ↔ cfg.divisor ≤ cfg.undivided) := by
  unfold ClockConfig.Valid at hv
  unfold CLOCK_CORECLOCK ClockConfig.divisor ClockConfig.undivided
  by_cases hp : cfg.CLOCK_USE_PLL ≠ 0
  · rw [if_pos hp] at hv
    obtain ⟨_, hhi, hd⟩ := hv
    have hne : cfg.CLOCK_PLL_DIV ≠ 0 := Nat.pos_iff_ne_zero.mp hd
    simp only [if_pos hp]
    refine ⟨((cfg.CLOCK_PLL_MUL + 1) * 1000000) / cfg.CLOCK_PLL_DIV, ?_, Nat.div_pos_iff hne⟩
    unfold CLOCK_CORECLOCK_PLL
    rw [if_neg hne, pll_product_no_wrap _ hhi]
  · rw [if_neg hp] at hv
    have hne : cfg.CLOCK_DIV ≠ 0 := Nat.pos_iff_ne_zero.mp hv
    simp only [if_neg hp]
    refine ⟨8000000 / cfg.CLOCK_DIV, ?_, Nat.div_pos_iff hne⟩
    unfold CLOCK_CORECLOCK_DIRECT u32
    rw [if_neg hne]
    norm_num

/-- Instance of `coreclock_pos_iff` at the configuration of the SODAQ Explorer. -/
theorem coreclock_pos_iff_witness :
    SodaqExplorer.clock.Valid ∧
      ∃ hz, CLOCK_CORECLOCK SodaqExplorer.clock = some hz
        ∧ (0 < hz ↔ SodaqExplorer.clock.divisor ≤ SodaqExplorer.clock.undivided) :=
  ⟨by decide, coreclock_pos_iff SodaqExplorer.clock (by decide)⟩

/-! ### Properties of the descriptor tables -/

/-- C4. On both boards each declared count `*_NUMOF` is the number of entries of
its table: 2 timers, 3 UARTs, 10 ADC channels, 1 SPI bus and 2 I2C buses on the
SODAQ Explorer; 2 timers, 2 UARTs, 11 ADC channels (the two entries under
`#if 0` left out), 1 SPI bus and 1 I2C bus on the SODAQ ONE. The three UART
entries of the SODAQ Explorer have pairwise distinct receive pins and pairwise
distinct transmit pins. -/
theorem numof_eq_table_length (k : Sam0Params) :
    (SodaqExplorer.TIMER_NUMOF k = (SodaqExplorer.timer_config k).length
        ∧ SodaqExplorer.TIMER_NUMOF k = 2
        ∧ SodaqExplorer.UART_NUMOF = SodaqExplorer.uart_config.length
        ∧ SodaqExplorer.UART_NUMOF = 3
        ∧ SodaqExplorer.ADC_NUMOF = SodaqExplorer.adc_channels.length
        ∧ SodaqExplorer.ADC_NUMOF = 10
        ∧ SodaqExplorer.SPI_NUMOF = SodaqExplorer.spi_config.length
        ∧ SodaqExplorer.SPI_NUMOF = 1
        ∧ SodaqExplorer.I2C_NUMOF = SodaqExplorer.i2c_config.length
        ∧ SodaqExplorer.I2C_NUMOF = 2)
      ∧ (SodaqOne.TIMER_NUMOF k = (SodaqOne.timer_config k).length
        ∧ SodaqOne.TIMER_NUMOF k = 2
        ∧ SodaqOne.UART_NUMOF = SodaqOne.uart_config.length
        ∧ SodaqOne.UART_NUMOF = 2
        ∧ SodaqOne.ADC_NUMOF = SodaqOne.adc_channels.length
        ∧ SodaqOne.ADC_NUMOF = 11
        ∧ SodaqOne.SPI_NUMOF = SodaqOne.spi_config.length
        ∧ SodaqOne.SPI_NUMOF = 1
        ∧ SodaqOne.I2C_NUMOF = SodaqOne.i2c_config.length
        ∧ SodaqOne.I2C_NUMOF = 1)
      ∧ (SodaqExplorer.uart_config.map uart_conf_t.rx_pin).Nodup
      ∧ (SodaqExplorer.uart_config.map uart_conf_t.tx_pin).Nodup :=
  ⟨⟨rfl, rfl, rfl, rfl, rfl, rfl, rfl, rfl, rfl, rfl⟩,
   ⟨rfl, rfl, rfl, rfl, rfl, rfl, rfl, rfl, rfl, rfl⟩, by decide, by decide⟩

/-- C5. In every descriptor of both boards the pin roles are pairwise distinct:
`rx_pin` and `tx_pin` of each UART entry, `miso_pin`, `mosi_pin` and `clk_pin`
of each SPI entry, `scl_pin` and `sda_pin` of each I2C entry, `dm` and `dp` of
the USB entry. -/
theorem descriptor_pins_distinct :
    ((∀ d ∈ SodaqExplorer.uart_config, d.rx_pin ≠ d.tx_pin)
        ∧ (∀ d ∈ SodaqExplorer.spi_config,
            d.miso_pin ≠ d.mosi_pin ∧ d.miso_pin ≠ d.clk_pin ∧ d.mosi_pin ≠ d.clk_pin)
        ∧ (∀ d ∈ SodaqExplorer.i2c_config, d.scl_pin ≠ d.sda_pin)
        ∧ (∀ d ∈ SodaqExplorer.sam_usbdev_config, d.dm ≠ d.dp))
      ∧ ((∀ d ∈ SodaqOne.uart_config, d.rx_pin ≠ d.tx_pin)
        ∧ (∀ d ∈ SodaqOne.spi_config,
            d.miso_pin ≠ d.mosi_pin ∧ d.miso_pin ≠ d.clk_pin ∧ d.mosi_pin ≠ d.clk_pin)
        ∧ (∀ d ∈ SodaqOne.i2c_config, d.scl_pin ≠ d.sda_pin)
        ∧ (∀ d ∈ SodaqOne.sam_usbdev_config, d.dm ≠ d.dp))
      ∧ (∀ d ∈ SodaqExplorer.uart_config, d.pins.Nodup)
      ∧ (∀ d ∈ SodaqExplorer.spi_config, d.pins.Nodup)
      ∧ (∀ d ∈ SodaqExplorer.i2c_config, d.pins.Nodup)
      ∧ (∀ d ∈ SodaqOne.uart_config, d.pins.Nodup)
      ∧ (∀ d ∈ SodaqOne.spi_config, d.pins.Nodup)
      ∧ (∀ d ∈ SodaqOne.i2c_config, d.pins.Nodup) := by
  decide

/-- Counterexample to C6: on the SODAQ Explorer the pair `(PA, 8)` is the pin of
ADC channel 4 and `sda_pin` of I2C bus 1, so it occurs twice among the pin
fields of the board; on the SODAQ ONE `(PA, 8)` is the pin of ADC channel 6 and
`miso_pin` of the SPI bus. Neither board has pairwise distinct pin fields. -/
theorem board_pins_shared :
    SodaqExplorer.all_pins.count (GPIO_PIN Port.PA 8) = 2
      ∧ SodaqOne.all_pins.count (GPIO_PIN Port.PA 8) = 2
      ∧ ¬ SodaqExplorer.all_pins.Nodup
      ∧ ¬ SodaqOne.all_pins.Nodup := by
  decide

/-- C6 (amended). On each board the pins of the UART, SPI, I2C and USB
descriptors taken together are pairwise distinct, the ADC channel pins are
pairwise distinct, and no ADC channel pin is a UART or USB pin. The pins that
occur twice are exactly those an ADC channel shares with a bus: `(PA, 8)` and
`(PA, 9)` with I2C bus 1 on the SODAQ Explorer, `(PA, 8)`, `(PA, 10)` and
`(PA, 11)` with the SPI bus on the SODAQ ONE; every other pin occurs once. -/
theorem board_pins_shared_only_with_adc :
    ((SodaqExplorer.uart_config.flatMap uart_conf_t.pins
          ++ SodaqExplorer.spi_config.flatMap spi_conf_t.pins
          ++ SodaqExplorer.i2c_config.flatMap i2c_conf_t.pins
          ++ SodaqExplorer.sam_usbdev_config.flatMap sam0_common_usb_config_t.pins).Nodup
        ∧ (SodaqExplorer.adc_channels.flatMap adc_conf_chan_t.pins).Nodup
        ∧ (∀ p ∈ SodaqExplorer.adc_channels.flatMap adc_conf_chan_t.pins,
            p ∉ SodaqExplorer.uart_config.flatMap uart_conf_t.pins
              ∧ p ∉ SodaqExplorer.sam_usbdev_config.flatMap sam0_common_usb_config_t.pins)
        ∧ (∀ p ∈ SodaqExplorer.all_pins,
            SodaqExplorer.all_pins.count p =
              if p ∈ [GPIO_PIN Port.PA 8, GPIO_PIN Port.PA 9] then 2 else 1)
        ∧ (∀ p ∈ [GPIO_PIN Port.PA 8, GPIO_PIN Port.PA 9],
            p ∈ SodaqExplorer.adc_channels.flatMap adc_conf_chan_t.pins
              ∧ p ∈ SodaqExplorer.i2c_config.flatMap i2c_conf_t.pins))
      ∧ ((SodaqOne.uart_config.flatMap uart_conf_t.pins
          ++ SodaqOne.spi_config.flatMap spi_conf_t.pins
          ++ SodaqOne.i2c_config.flatMap i2c_conf_t.pins
          ++ SodaqOne.sam_usbdev_config.flatMap sam0_common_usb_config_t.pins).Nodup
        ∧ (SodaqOne.adc_channels.flatMap adc_conf_chan_t.pins).Nodup
        ∧ (∀ p ∈ SodaqOne.adc_channels.flatMap adc_conf_chan_t.pins,
            p ∉ SodaqOne.uart_config.flatMap uart_conf_t.pins
              ∧ p ∉ SodaqOne.sam_usbdev_config.flatMap sam0_common_usb_config_t.pins)
        ∧ (∀ p ∈ SodaqOne.all_pins,
            SodaqOne.all_pins.count p =
              if p ∈ [GPIO_PIN Port.PA 8, GPIO_PIN Port.PA 10, GPIO_PIN Port.PA 11] then 2
              else 1)
        ∧ (∀ p ∈ [GPIO_PIN Port.PA 8, GPIO_PIN Port.PA 10, GPIO_PIN Port.PA 11],
            p ∈ SodaqOne.adc_channels.flatMap adc_conf_chan_t.pins
              ∧ p ∈ SodaqOne.spi_config.flatMap spi_conf_t.pins)) := by
  decide

/-- C7. On each board every timer index below `TIMER_NUMOF` and every UART
index below `UART_NUMOF` has exactly one `TIMER_i_ISR` / `UART_i_ISR`
definition, `RTT_ISR` is defined exactly once, there is no further definition,
and the bound interrupt service names are pairwise distinct. -/
theorem isr_bindings_exhaustive_injective (k : Sam0Params) :
    ((∀ i < SodaqExplorer.TIMER_NUMOF k,
          bindingCount SodaqExplorer.isr_bindings (IsrMacro.TIMER_ISR i) = 1)
        ∧ (∀ i < SodaqExplorer.UART_NUMOF,
          bindingCount SodaqExplorer.isr_bindings (IsrMacro.UART_ISR i) = 1)
        ∧ bindingCount SodaqExplorer.isr_bindings IsrMacro.RTT_ISR = 1
        ∧ SodaqExplorer.isr_bindings.length
            = SodaqExplorer.TIMER_NUMOF k + SodaqExplorer.UART_NUMOF + SodaqExplorer.RTT_NUMOF
        ∧ (SodaqExplorer.isr_bindings.map Prod.snd).Nodup)
      ∧ ((∀ i < SodaqOne.TIMER_NUMOF k,
          bindingCount SodaqOne.isr_bindings (IsrMacro.TIMER_ISR i) = 1)
        ∧ (∀ i < SodaqOne.UART_NUMOF,
          bindingCount SodaqOne.isr_bindings (IsrMacro.UART_ISR i) = 1)
        ∧ bindingCount SodaqOne.isr_bindings IsrMacro.RTT_ISR = 1
        ∧ SodaqOne.isr_bindings.length
            = SodaqOne.TIMER_NUMOF k + SodaqOne.UART_NUMOF + SodaqOne.RTT_NUMOF
        ∧ (SodaqOne.isr_bindings.map Prod.snd).Nodup) := by
  have he : SodaqExplorer.TIMER_NUMOF k = 2 := rfl
  have ho : SodaqOne.TIMER_NUMOF k = 2 := rfl
  rw [he, ho]
  decide

/-- The gate bit of a single-bit mask. -/
theorem testBit_one_shiftLeft (p i : Nat) : (1 <<< p).testBit i = decide (p = i) := by
  rw [Nat.one_shiftLeft, Nat.testBit_two_pow]

/-- Two single-bit masks at different positions have no bit in common. -/
theorem single_bit_masks_disjoint (p q : Nat) (h : p ≠ q) : (1 <<< p) &&& (1 <<< q) = 0 := by
  apply Nat.eq_of_testBit_eq
  intro i
  rw [Nat.testBit_and, testBit_one_shiftLeft, testBit_one_shiftLeft, Nat.zero_testBit]
  by_cases hp : p = i
  · have hq : q ≠ i := fun hq => h (hp.trans hq.symm)
    simp [hp, hq]
  · simp [hp]

/-- C9. On both boards the counting width of a timer entry matches the units
its `pm_mask` gates, for any placement of the three gate bits at which the bit
of TC3 differs from those of TC4 and TC5: the entry flagged
`TC_CTRLA_MODE_COUNT32` gates exactly the bits of TC4 and TC5 and uses
`GCLK_CLKCTRL_ID_TC4_TC5`, the entry flagged `TC_CTRLA_MODE_COUNT16` gates
exactly the bit of TC3, and two different entries gate no common bit. -/
theorem timer_width_matches_gated_units (k : Sam0Params)
    (h34 : k.PM_APBCMASK_TC3_Pos ≠ k.PM_APBCMASK_TC4_Pos)
    (h35 : k.PM_APBCMASK_TC3_Pos ≠ k.PM_APBCMASK_TC5_Pos) :
    TimerWidthMatchesUnits k (SodaqExplorer.timer_config k)
      ∧ TimerWidthMatchesUnits k (SodaqOne.timer_config k) := by
  have hdisj : PM_APBCMASK_TC3 k &&& (PM_APBCMASK_TC4 k ||| PM_APBCMASK_TC5 k) = 0 := by
    unfold PM_APBCMASK_TC3 PM_APBCMASK_TC4 PM_APBCMASK_TC5
    rw [Nat.and_or_distrib_left, single_bit_masks_disjoint _ _ h34,
      single_bit_masks_disjoint _ _ h35]
    rfl
  have h32 : ∀ i, (PM_APBCMASK_TC4 k ||| PM_APBCMASK_TC5 k).testBit i = true ↔
      i = k.PM_APBCMASK_TC4_Pos ∨ i = k.PM_APBCMASK_TC5_Pos := by
    intro i
    unfold PM_APBCMASK_TC4 PM_APBCMASK_TC5
    rw [Nat.testBit_or, testBit_one_shiftLeft, testBit_one_shiftLeft]
    simp only [Bool.or_eq_true, decide_eq_true_eq]
    exact ⟨fun h => h.imp Eq.symm Eq.symm, fun h => h.imp Eq.symm Eq.symm⟩
  have h16 : ∀ i, (PM_APBCMASK_TC3 k).testBit i = true ↔ i = k.PM_APBCMASK_TC3_Pos := by
    intro i
    unfold PM_APBCMASK_TC3
    rw [testBit_one_shiftLeft]
    simp only [decide_eq_true_eq]
    exact ⟨Eq.symm, Eq.symm⟩
  have hsame : SodaqOne.timer_config k = SodaqExplorer.timer_config k := rfl
  rw [hsame, and_self]
  unfold TimerWidthMatchesUnits
  refine ⟨?_, ?_, ?_, rfl⟩
  · intro d hd hflag
    simp only [SodaqExplorer.timer_config, List.mem_cons, List.mem_singleton,
      List.not_mem_nil, or_false] at hd
    rcases hd with rfl | rfl
    · exact TcMode.noConfusion hflag
    · exact ⟨(h32 _).2 (Or.inl rfl), (h32 _).2 (Or.inr rfl), h32, rfl, rfl⟩
  · intro d hd hflag
    simp only [SodaqExplorer.timer_config, List.mem_cons, List.mem_singleton,
      List.not_mem_nil, or_false] at hd
    rcases hd with rfl | rfl
    · exact ⟨h16, rfl, rfl⟩
    · exact TcMode.noConfusion hflag
  · simp only [SodaqExplorer.timer_config, List.pairwise_cons, List.mem_singleton,
      List.not_mem_nil, forall_eq, List.Pairwise.nil, and_true, false_imp_iff,
      implies_true]
    exact hdisj

/-- Instance of `timer_width_matches_gated_units` at the gate bit positions 11,
12 and 13. -/
theorem timer_width_matches_gated_units_witness :
    (samd21Params.PM_APBCMASK_TC3_Pos ≠ samd21Params.PM_APBCMASK_TC4_Pos
        ∧ samd21Params.PM_APBCMASK_TC3_Pos ≠ samd21Params.PM_APBCMASK_TC5_Pos)
      ∧ TimerWidthMatchesUnits samd21Params (SodaqExplorer.timer_config samd21Params)
      ∧ TimerWidthMatchesUnits samd21Params (SodaqOne.timer_config samd21Params) :=
  ⟨⟨by decide, by decide⟩,
    timer_width_matches_gated_units samd21Params (by decide) (by decide)⟩

/-! ### Properties of `board_init` -/

/-- C8. One call of `board_init` with the weak `led_init`, whatever the variant,
the prescaler setting and the content of `PRR1`, makes exactly the four calls
`atmega_set_prescaler`, `cpu_init`, `led_init`, `irq_enable`, each once and in
that order. They lead from `Reset` through `ClockConfigured`,
`CoreInitialized` and `IndicatorsInitialized` to `InterruptsEnabled` in four
transitions, and no state is visited twice. The weak `led_init` leaves the
machine as it finds it. -/
theorem board_init_reaches_interrupts_enabled (CPU_ATMEGA32U4 : Bool) (PRUSB : Nat)
    (scale : Option ClkScale) (prr1 : Nat) :
    callsOf (board_init CPU_ATMEGA32U4 PRUSB scale led_init_weak
        { PRR1 := prr1, trace := [] }).trace
        = [Call.atmega_set_prescaler (CPU_ATMEGA_CLK_SCALE_INIT scale), Call.cpu_init,
            Call.led_init, Call.irq_enable]
      ∧ BringupState.path BringupState.Reset
          (callsOf (board_init CPU_ATMEGA32U4 PRUSB scale led_init_weak
            { PRR1 := prr1, trace := [] }).trace)
        = some [BringupState.Reset, BringupState.ClockConfigured,
            BringupState.CoreInitialized, BringupState.IndicatorsInitialized,
            BringupState.InterruptsEnabled]
      ∧ [BringupState.Reset, BringupState.ClockConfigured, BringupState.CoreInitialized,
          BringupState.IndicatorsInitialized, BringupState.InterruptsEnabled].Nodup
      ∧ (callsOf (board_init CPU_ATMEGA32U4 PRUSB scale led_init_weak
          { PRR1 := prr1, trace := [] }).trace).length = 4
      ∧ (∀ s : Mcu, led_init_weak s = s) := by
  have hcalls : callsOf (board_init CPU_ATMEGA32U4 PRUSB scale led_init_weak
      { PRR1 := prr1, trace := [] }).trace
      = [Call.atmega_set_prescaler (CPU_ATMEGA_CLK_SCALE_INIT scale), Call.cpu_init,
          Call.led_init, Call.irq_enable] := by
    cases CPU_ATMEGA32U4 <;> rfl
  rw [hcalls]
  exact ⟨rfl, rfl, by decide, rfl, fun _ => rfl⟩

/-- The bits of `PRR1` after `PRR1 |= 1<<PRUSB`. -/
theorem testBit_u8_or_bit (v b i : Nat) :
    (u8 (v ||| 1 <<< b)).testBit i = (decide (i < 8) && (v.testBit i || decide (b = i))) := by
  unfold u8
  rw [Nat.testBit_mod_two_pow, Nat.testBit_or, testBit_one_shiftLeft]

/-- C10. With `CPU_ATMEGA32U4` defined, `board_init` writes `PRR1` first and
calls `atmega_set_prescaler` after it. For a bit index `PRUSB` below 8 and an
8-bit content `v` of `PRR1`, the write stores `v` with the bit `PRUSB` set:
writing twice stores what writing once stores, and every other bit keeps its
value. Without `CPU_ATMEGA32U4` there is no write and `PRR1` keeps its
content. -/
theorem board_init_usb_disable (PRUSB v : Nat) (scale : Option ClkScale)
    (hbit : PRUSB < 8) (hv : v < 2 ^ 8) :
    (board_init true PRUSB scale led_init_weak { PRR1 := v, trace := [] }).trace
        = [Event.write_PRR1 (u8 (v ||| 1 <<< PRUSB)),
            Event.call (Call.atmega_set_prescaler (CPU_ATMEGA_CLK_SCALE_INIT scale)),
            Event.call Call.cpu_init, Event.call Call.led_init, Event.call Call.irq_enable]
      ∧ (board_init true PRUSB scale led_init_weak { PRR1 := v, trace := [] }).PRR1
        = u8 (v ||| 1 <<< PRUSB)
      ∧ (PRR1_set_PRUSB PRUSB (PRR1_set_PRUSB PRUSB { PRR1 := v, trace := [] })).PRR1
        = (PRR1_set_PRUSB PRUSB { PRR1 := v, trace := [] }).PRR1
      ∧ (∀ i, i ≠ PRUSB →
          (PRR1_set_PRUSB PRUSB { PRR1 := v, trace := [] }).PRR1.testBit i = v.testBit i)
      ∧ (PRR1_set_PRUSB PRUSB { PRR1 := v, trace := [] }).PRR1.testBit PRUSB = true
      ∧ (PRR1_set_PRUSB PRUSB { PRR1 := v, trace := [] }).PRR1 < 2 ^ 8
      ∧ (board_init false PRUSB scale led_init_weak { PRR1 := v, trace := [] }).trace
        = [Event.call (Call.atmega_set_prescaler (CPU_ATMEGA_CLK_SCALE_INIT scale)),
            Event.call Call.cpu_init, Event.call Call.led_init, Event.call Call.irq_enable]
      ∧ (board_init false PRUSB scale led_init_weak { PRR1 := v, trace := [] }).PRR1 = v := by
  refine ⟨rfl, rfl, ?_, ?_, ?_, ?_, rfl, rfl⟩
  · show u8 (u8 (v ||| 1 <<< PRUSB) ||| 1 <<< PRUSB) = u8 (v ||| 1 <<< PRUSB)
    apply Nat.eq_of_testBit_eq
    intro i
    rw [testBit_u8_or_bit, testBit_u8_or_bit]
    cases decide (i < 8) <;> cases v.testBit i <;> cases decide (PRUSB = i) <;> rfl
  · intro i hi
    show (u8 (v ||| 1 <<< PRUSB)).testBit i = v.testBit i
    rw [testBit_u8_or_bit]
    have hne : decide (PRUSB = i) = false := decide_eq_false (fun h => hi h.symm)
    rw [hne, Bool.or_false]
    by_cases h8 : i < 8
    · rw [decide_eq_true h8, Bool.true_and]
    · rw [decide_eq_false h8, Bool.false_and]
      exact (Nat.testBit_lt_two_pow (lt_of_lt_of_le hv
        (Nat.pow_le_pow_right (by decide) (Nat.le_of_not_lt h8)))).symm
  · show (u8 (v ||| 1 <<< PRUSB)).testBit PRUSB = true
    rw [testBit_u8_or_bit, decide_eq_true hbit, decide_eq_true rfl, Bool.or_true]
    rfl
  · exact Nat.mod_lt _ (by decide)

/-- Instance of `board_init_usb_disable` at `PRUSB = 7` and `PRR1 = 0x01`: the
write stores `0x81`. -/
theorem board_init_usb_disable_witness :
    (board_init true 7 none led_init_weak { PRR1 := 1, trace := [] }).trace
      = [Event.write_PRR1 (u8 (1 ||| 1 <<< 7)),
          Event.call (Call.atmega_set_prescaler (CPU_ATMEGA_CLK_SCALE_INIT none)),
          Event.call Call.cpu_init, Event.call Call.led_init, Event.call Call.irq_enable] :=
  (board_init_usb_disable 7 1 none (by decide) (by decide)).1

end Riot
